import Mathlib

/-!
Shallow embedding of the ai-tutor-backend exam-generation, grading,
statistics and streak code (src/app/api/routes/exams.py,
src/app/api/routes/questions.py, src/app/api/routes/dashboard.py,
src/app/schemas/question.py, src/app/models/user.py).

Modelling conventions:
* Python dicts are association lists in insertion order; `pyGet` is `dict.get`
  and `dictIncr` is `d[k] = d.get(k, 0) + 1` (updates in place, otherwise
  appends, preserving insertion order exactly as CPython 3.7+ dicts do).
* Python list indexing `l[i]` with a possibly negative `i` is `pyIndex`
  (negative indices count from the end; out of range raises, modelled as
  `none`).
* Machine integers are `Nat`/`Int`.  The grader's
  `int((correct_count / total_questions) * 100)` runs in IEEE binary64:
  it is modelled exactly (`pyScore`) with integer arithmetic — one
  correctly rounded division (round to nearest, ties to even, 53
  significand bits), one correctly rounded multiplication by 100 (itself
  exactly representable), then truncation toward zero.  The exponent is
  unbounded, which coincides with binary64 on the program's reachable
  magnitudes (scores live in [0, 100·c], far from overflow and
  subnormals).  Because of double rounding this is NOT always the floor
  of the exact ratio: 29 of 100 gives 28, not 29.  Division by zero
  raises in Python and is an explicit error branch here.
* HTTP routes become pure functions from a database state to
  `DB × Except HTTPException response`; an `HTTPException` (or any uncaught
  Python exception, modelled with status 500) aborts the request before
  `db.commit()`, so the error branches return the database unchanged.
* `random.sample(pool, k)` is parametrised by a caller-supplied selection
  function `sample`; theorems assume only what `random.sample` guarantees
  (`k ≤ pool.length → `the result has length `k` and its elements come from
  the pool).
-/

namespace AiTutor

/-- An HTTP error raised by a route (`fastapi.HTTPException`); uncaught
Python exceptions (IndexError, ZeroDivisionError) surface as status 500. -/
structure HTTPException where
  status_code : Nat
  detail : String
  deriving Repr, DecidableEq

/-- Python `dict.get(k)` on an insertion-ordered association list. -/
def pyGet {K V : Type} [DecidableEq K] (d : List (K × V)) (k : K) : Option V :=
  (d.find? (fun p => p.1 = k)).map (fun p => p.2)

/-- Python `d[k] = d.get(k, 0) + 1`: update in place if the key exists
(order preserved), otherwise append at the end. -/
def dictIncr (d : List (String × Nat)) (t : String) : List (String × Nat) :=
  if d.any (fun p => p.1 = t) then
    d.map (fun p => if p.1 = t then (p.1, p.2 + 1) else p)
  else
    d ++ [(t, 1)]

/-- Python list indexing `l[i]`: nonnegative indices from the front,
negative indices from the end, `none` = IndexError. -/
def pyIndex {α : Type} (l : List α) (i : Int) : Option α :=
  if 0 ≤ i then l.get? i.toNat
  else if (-i).toNat ≤ l.length then l.get? (l.length - (-i).toNat)
  else none

/-- Python truthiness of an `Optional[str]`: `None` and `""` are falsy. -/
def strTruthy (o : Option String) : Bool :=
  match o with
  | none => false
  | some s => s ≠ ""

/-- Python `o or dflt` for an `Optional[str]`. -/
def pyOrStr (o : Option String) (dflt : String) : String :=
  match o with
  | none => dflt
  | some s => if s = "" then dflt else s

/-- Python `n or dflt` for an `int`: `0` is falsy. -/
def pyOrNat (n : Nat) (dflt : Nat) : Nat :=
  if n = 0 then dflt else n

/-- Fuel-based ⌊log₂⌋ kernel: one halving per fuel unit. -/
def natLog2F : Nat → Nat → Nat
  | 0, _ => 0
  | fuel + 1, n => if 2 ≤ n then natLog2F fuel (n / 2) + 1 else 0

/-- ⌊log₂ n⌋ for n ≥ 1 (fuel `n` suffices, the argument halves each
step). -/
def natLog2 (n : Nat) : Nat := natLog2F n n

/-- Largest `d` with `t * 2 ^ d ≤ c`, reached by upward search from `d`
(used with `t ≤ c`, start 0, fuel `c`). -/
def upLog (c t : Nat) : Nat → Nat → Nat
  | 0, d => d
  | fuel + 1, d => if t * 2 ^ (d + 1) ≤ c then upLog c t fuel (d + 1) else d

/-- Smallest `d` with `t ≤ c * 2 ^ d`, reached by upward search from `d`
(used with `c < t`, start 1, fuel `t`). -/
def downLog (c t : Nat) : Nat → Nat → Nat
  | 0, d => d
  | fuel + 1, d => if c * 2 ^ d < t then downLog c t fuel (d + 1) else d

/-- ⌊log₂ (c / t)⌋ for `c, t ≥ 1`. -/
def floorLog2Ratio (c t : Nat) : Int :=
  if t ≤ c then (upLog c t c 0 : Int) else -(downLog c t t 1 : Int)

/-- Round `a / b` (with `b ≥ 1`) to the nearest integer, ties to even. -/
def roundHalfEvenNat (a b : Nat) : Nat :=
  if 2 * (a % b) < b then a / b
  else if b < 2 * (a % b) then a / b + 1
  else if a / b % 2 = 0 then a / b else a / b + 1

/-- A nonnegative dyadic rational `num / 2 ^ exp`: the exact value of a
finite nonnegative IEEE binary64 double. -/
structure Dyadic where
  num : Nat
  exp : Int
  deriving Repr, DecidableEq

/-- IEEE binary64 division `c / t` of two nonnegative integers
(`t ≥ 1`): scale the exact ratio into `[2^52, 2^53)` and round to
nearest, ties to even — 53 significand bits; the exponent is unbounded,
which agrees with binary64 away from overflow and subnormals. -/
def floatDiv (c t : Nat) : Dyadic :=
  if c = 0 then ⟨0, 0⟩
  else
    let s : Int := 52 - floorLog2Ratio c t
    if 0 ≤ s then ⟨roundHalfEvenNat (c * 2 ^ s.toNat) t, s⟩
    else ⟨roundHalfEvenNat c (t * 2 ^ (-s).toNat), s⟩

/-- IEEE binary64 multiplication of a double by a nonnegative integer
constant (here 100, itself exactly representable): exact product, one
rounding into 53 significand bits. -/
def floatMulNat (x : Dyadic) (k : Nat) : Dyadic :=
  if x.num * k = 0 then ⟨0, 0⟩
  else
    let s2 : Int := 52 - ((natLog2 (x.num * k) : Int) - x.exp)
    if 0 ≤ s2 - x.exp then ⟨x.num * k * 2 ^ (s2 - x.exp).toNat, s2⟩
    else ⟨roundHalfEvenNat (x.num * k) (2 ^ (x.exp - s2).toNat), s2⟩

/-- Python `int()` on a nonnegative double: truncation toward zero. -/
def truncDy (x : Dyadic) : Nat :=
  if 0 ≤ x.exp then x.num / 2 ^ x.exp.toNat
  else x.num * 2 ^ (-x.exp).toNat

/-- The grader's `int((correct_count / total_questions) * 100)`
(exams.py line 247) under exact IEEE binary64 semantics. -/
def pyScore (c t : Nat) : Nat := truncDy (floatMulNat (floatDiv c t) 100)

/-- A row of the `past_questions` table (src/app/models + query columns
used by `create_mock_exam`). -/
structure PastQuestion where
  exam_type : String
  subject : String
  year : Option String
  question_text : String
  options : List (String × String)
  correct_answer : Option String
  topic : Option String
  deriving Repr, DecidableEq

/-- A question dict stored in `ExamAttempt.questions` (JSON column):
the grader reads keys `"question"` and `"topic"` (the latter via
`.get("topic", "Unknown")`, so it may be absent). -/
structure StoredQuestion where
  question : String
  options : List (String × String)
  correct_answer : Option String
  topic : Option String
  deriving Repr, DecidableEq

/-- An entry of the module-level `SAMPLE_QUESTIONS` table in exams.py
(all four keys always present). -/
structure SampleQuestion where
  question : String
  options : List (String × String)
  correct_answer : String
  topic : String
  deriving Repr, DecidableEq

/-- Sample-path storage keeps the sample dicts whole
(`questions=selected_questions`). -/
def SampleQuestion.toStored (q : SampleQuestion) : StoredQuestion :=
  { question := q.question
    options := q.options
    correct_answer := some q.correct_answer
    topic := some q.topic }

/-- The module-level `SAMPLE_QUESTIONS` fallback bank in exams.py,
keyed by subject name; `SAMPLE_QUESTIONS.get(subject, [])`. -/
def SAMPLE_QUESTIONS (subject : String) : List SampleQuestion :=
  if subject = "Mathematics" then
    [ { question := "Simplify: 3x + 5x - 2x"
        options := [("A", "6x"), ("B", "8x"), ("C", "10x"), ("D", "5x")]
        correct_answer := "A"
        topic := "Algebraic Processes" }
    , { question := "What is the square root of 144?"
        options := [("A", "10"), ("B", "11"), ("C", "12"), ("D", "13")]
        correct_answer := "C"
        topic := "Number and Numeration" }
    , { question := "Solve for x: 2x + 5 = 15"
        options := [("A", "3"), ("B", "4"), ("C", "5"), ("D", "6")]
        correct_answer := "C"
        topic := "Linear Equations" } ]
  else if subject = "English Language" then
    [ { question := "Choose the correct spelling:"
        options := [("A", "Recieve"), ("B", "Receive"), ("C", "Receeve"), ("D", "Recive")]
        correct_answer := "B"
        topic := "Spelling" } ]
  else []

/-- A row of the `exam_attempts` table (src/app/models/question.py). -/
structure ExamAttempt where
  id : Nat
  user_id : Nat
  exam_type : String
  subject : String
  year : Option String
  questions : List StoredQuestion
  user_answers : List (Int × String)
  correct_answers : List (String × String)
  time_limit_minutes : Nat
  time_taken_seconds : Nat
  total_questions : Nat
  correct_count : Nat
  score_percentage : Nat
  weak_topics : Option (List String)
  started_at : Nat
  completed_at : Option Nat
  deriving Repr, DecidableEq

/-- A row of the `user_subjects` table (src/app/models/user.py):
per-user per-subject performance counters. -/
structure UserSubject where
  id : Nat
  user_id : Nat
  subject_name : String
  total_questions_attempted : Nat
  correct_answers : Nat
  deriving Repr, DecidableEq

/-- The slices of the database the embedded routes touch. -/
structure DB where
  past_questions : List PastQuestion
  attempts : List ExamAttempt
  user_subjects : List UserSubject
  next_id : Nat
  deriving Repr, DecidableEq

/-- `MockExamRequest` after pydantic validation
(src/app/schemas/question.py lines 100-106). -/
structure MockExamRequest where
  exam_type : String
  subject : String
  year : Option String
  number_of_questions : Nat
  time_limit_minutes : Nat
  deriving Repr, DecidableEq

/-- Pydantic construction of `MockExamRequest`: an omitted
`number_of_questions` takes the schema default 40, an omitted
`time_limit_minutes` takes the schema default 60; caller-supplied values
must satisfy `ge=10, le=100` resp. `ge=15, le=180` or validation fails
(422). Caller values are arbitrary ints, hence `Int` inputs. -/
def mkMockExamRequest (exam_type subject : String) (year : Option String)
    (number_of_questions : Option Int) (time_limit_minutes : Option Int) :
    Except HTTPException MockExamRequest :=
  let n : Int := number_of_questions.getD 40
  let t : Int := time_limit_minutes.getD 60
  if n < 10 ∨ 100 < n then
    .error ⟨422, "number_of_questions must satisfy ge=10 le=100"⟩
  else if t < 15 ∨ 180 < t then
    .error ⟨422, "time_limit_minutes must satisfy ge=15 le=180"⟩
  else
    .ok { exam_type := exam_type, subject := subject, year := year
          number_of_questions := n.toNat, time_limit_minutes := t.toNat }

/-- `ExamSubmissionRequest` (schemas/question.py lines 120-124):
`answers : Dict[int, str]`, kept in insertion order. -/
structure ExamSubmissionRequest where
  exam_id : Nat
  answers : List (Int × String)
  time_taken_seconds : Nat
  deriving Repr, DecidableEq

/-- A question as returned to the student (`ExamQuestion` schema). -/
structure ExamQuestion where
  question_number : Nat
  question_text : String
  options : List (String × String)
  correct_answer : Option String
  deriving Repr, DecidableEq

/-- `MockExamResponse` (schemas/question.py lines 109-117). -/
structure MockExamResponse where
  exam_id : Nat
  exam_type : String
  subject : String
  total_questions : Nat
  time_limit_minutes : Nat
  questions : List ExamQuestion
  started_at : Nat
  deriving Repr, DecidableEq

/-- One entry of `detailed_results` built by the grading loop. -/
structure DetailedResult where
  question_number : Int
  question_text : String
  user_answer : String
  correct_answer : Option String
  is_correct : Bool
  topic : String
  deriving Repr, DecidableEq

/-- `ExamResultResponse` (schemas/question.py lines 127-136). -/
structure ExamResultResponse where
  exam_id : Nat
  total_questions : Nat
  correct_count : Nat
  score_percentage : Nat
  time_taken_seconds : Nat
  weak_topics : List String
  detailed_results : List DetailedResult
  recommendations : List String
  deriving Repr, DecidableEq

/-- The WHERE clause of the bank query in `create_mock_exam`
(exams.py lines 69-76): same exam_type and subject, non-null
correct_answer, and the year filter when a truthy year other than
"Random Mix" was requested. -/
def matchesQuery (req : MockExamRequest) (pq : PastQuestion) : Bool :=
  pq.exam_type = req.exam_type ∧ pq.subject = req.subject ∧
  pq.correct_answer.isSome ∧
  (if strTruthy req.year ∧ req.year ≠ some "Random Mix" then
    pq.year = req.year
  else true)

/-- `create_mock_exam` (exams.py lines 56-190).  `sample` stands for
`random.sample`; `now` for the server-side `started_at` default. -/
def create_mock_exam
    (sample : {α : Type} → List α → Nat → List α)
    (db : DB) (uid : Nat) (req : MockExamRequest) (now : Nat) :
    DB × Except HTTPException MockExamResponse :=
  let questions_pool_db := db.past_questions.filter (matchesQuery req)
  if questions_pool_db ≠ [] then
    -- bank path
    let num_questions := pyOrNat req.number_of_questions 50
    let selected := sample questions_pool_db
      (min num_questions questions_pool_db.length)
    let exam_questions := selected.enum.map (fun p =>
      ({ question_number := p.1 + 1
         question_text := p.2.question_text
         options := p.2.options
         correct_answer := none } : ExamQuestion))
    let questions_for_storage := selected.map (fun pq =>
      ({ question := pq.question_text
         options := pq.options
         correct_answer := pq.correct_answer
         topic := some (pyOrStr pq.topic "Unknown") } : StoredQuestion))
    let exam_attempt : ExamAttempt :=
      { id := db.next_id
        user_id := uid
        exam_type := req.exam_type
        subject := req.subject
        year := req.year
        questions := questions_for_storage
        user_answers := []
        correct_answers := selected.enum.map (fun p =>
          (toString (p.1 + 1), p.2.correct_answer.getD ""))
        time_limit_minutes := pyOrNat req.time_limit_minutes 90
        time_taken_seconds := 0
        total_questions := exam_questions.length
        correct_count := 0
        score_percentage := 0
        weak_topics := none
        started_at := now
        completed_at := none }
    ({ db with attempts := db.attempts ++ [exam_attempt]
               next_id := db.next_id + 1 },
     .ok { exam_id := exam_attempt.id
           exam_type := req.exam_type
           subject := req.subject
           total_questions := exam_questions.length
           time_limit_minutes := pyOrNat req.time_limit_minutes 90
           questions := exam_questions
           started_at := now })
  else
    -- fallback to the sample bank
    let questions_pool := SAMPLE_QUESTIONS req.subject
    if questions_pool = [] then
      (db, .error ⟨400, "No questions available for " ++ req.subject ++ " "
        ++ req.exam_type
        ++ ". Please upload past questions first or try a different subject."⟩)
    else
      let selected := sample questions_pool
        (min req.number_of_questions questions_pool.length)
      let exam_questions := selected.enum.map (fun p =>
        ({ question_number := p.1 + 1
           question_text := p.2.question
           options := p.2.options
           correct_answer := none } : ExamQuestion))
      let exam_attempt : ExamAttempt :=
        { id := db.next_id
          user_id := uid
          exam_type := req.exam_type
          subject := req.subject
          year := req.year
          questions := selected.map SampleQuestion.toStored
          user_answers := []
          correct_answers := selected.enum.map (fun p =>
            (toString (p.1 + 1), p.2.correct_answer))
          time_limit_minutes := req.time_limit_minutes
          time_taken_seconds := 0
          total_questions := selected.length
          correct_count := 0
          score_percentage := 0
          weak_topics := none
          started_at := now
          completed_at := none }
      ({ db with attempts := db.attempts ++ [exam_attempt]
                 next_id := db.next_id + 1 },
       .ok { exam_id := exam_attempt.id
             exam_type := req.exam_type
             subject := req.subject
             total_questions := exam_questions.length
             time_limit_minutes := req.time_limit_minutes
             questions := exam_questions
             started_at := now })

/-- The grading loop's accumulator: `correct_count`, `detailed_results`
and the `weak_topics` counter dict of exams.py lines 221-223. -/
structure GradeState where
  correct_count : Nat
  detailed : List DetailedResult
  weak : List (String × Nat)
  deriving Repr, DecidableEq

/-- One iteration of the grading loop (exams.py lines 225-244) for an
entry `(q_num, user_answer)` of `submission.answers.items()`.
`exam.questions[int(q_num) - 1]` may raise IndexError (status 500);
it is evaluated in the incorrect branch and again when building the
detailed-result entry, so it fails in both branches when out of range. -/
def gradeStep (exam : ExamAttempt) (st : GradeState) (qa : Int × String) :
    Except HTTPException GradeState :=
  match pyIndex exam.questions (qa.1 - 1) with
  | none => .error ⟨500, "IndexError: list index out of range"⟩
  | some q =>
    if pyGet exam.correct_answers (toString qa.1) = some qa.2 then
      .ok { correct_count := st.correct_count + 1
            detailed := st.detailed ++
              [{ question_number := qa.1
                 question_text := q.question
                 user_answer := qa.2
                 correct_answer := pyGet exam.correct_answers (toString qa.1)
                 is_correct := true
                 topic := q.topic.getD "Unknown" }]
            weak := st.weak }
    else
      .ok { correct_count := st.correct_count
            detailed := st.detailed ++
              [{ question_number := qa.1
                 question_text := q.question
                 user_answer := qa.2
                 correct_answer := pyGet exam.correct_answers (toString qa.1)
                 is_correct := false
                 topic := q.topic.getD "Unknown" }]
            weak := dictIncr st.weak (q.topic.getD "Unknown") }

/-- The grading loop `for q_num, user_answer in submission.answers.items()`
(exams.py lines 225-244). -/
def gradeLoop (exam : ExamAttempt) (st : GradeState) :
    List (Int × String) → Except HTTPException GradeState
  | [] => .ok st
  | qa :: rest =>
    match gradeStep exam st qa with
    | .error e => .error e
    | .ok st' => gradeLoop exam st' rest

/-- Stable insertion of a `(topic, count)` pair into a list sorted by
count descending: the new element goes before the first element whose
count is `≤` its own, so earlier-inserted equals stay in front. -/
def insertDesc (x : String × Nat) : List (String × Nat) → List (String × Nat)
  | [] => [x]
  | y :: ys => if y.2 ≤ x.2 then x :: y :: ys else y :: insertDesc x ys

/-- Python's `sorted(weak_topics.items(), key=lambda x: x[1], reverse=True)`
(exams.py line 250): a stable sort by count descending. -/
def sortDesc : List (String × Nat) → List (String × Nat)
  | [] => []
  | x :: xs => insertDesc x (sortDesc xs)

/-- `weak_topics_names = [topic for topic, _ in weak_topics_list[:3]]`
(exams.py line 251). -/
def weakTopicNames (weak : List (String × Nat)) : List String :=
  ((sortDesc weak).take 3).map Prod.fst

/-- The recommendation block of exams.py lines 274-280. -/
def recommendationsFor (score_percentage : Nat) (weak_names : List String)
    (subject : String) : List String :=
  (if score_percentage < 50 then
    ["Focus on improving your understanding of " ++ subject ++ " fundamentals"]
  else []) ++
  (if weak_names ≠ [] then
    ["Spend more time studying: " ++ String.intercalate ", " weak_names]
  else []) ++
  (if 70 ≤ score_percentage then
    ["Great job! Keep practicing to maintain this level"]
  else [])

/-- SQLAlchemy `.first()` followed by in-place mutation: rewrite the first
element satisfying the predicate, keep the rest. -/
def updateFirst {α : Type} (p : α → Bool) (f : α → α) : List α → List α
  | [] => []
  | x :: xs => if p x then f x :: xs else x :: updateFirst p f xs

/-- The subject-statistics update of `submit_exam` (exams.py lines
262-269): add the attempt's totals to the first matching `user_subjects`
row when one exists, otherwise change nothing. -/
def updateSubjectStats (subjects : List UserSubject) (uid : Nat)
    (subject : String) (total correct : Nat) : List UserSubject :=
  if subjects.any (fun s => s.user_id = uid ∧ s.subject_name = subject) then
    updateFirst (fun s => s.user_id = uid ∧ s.subject_name = subject)
      (fun s => { s with
        total_questions_attempted := s.total_questions_attempted + total
        correct_answers := s.correct_answers + correct })
      subjects
  else subjects

/-- `submit_exam` (exams.py lines 193-291).  `now` models
`datetime.utcnow()`.  Error branches happen before `db.commit()` and so
return the database unchanged. -/
def submit_exam (db : DB) (uid : Nat) (sub : ExamSubmissionRequest)
    (now : Nat) : DB × Except HTTPException ExamResultResponse :=
  match db.attempts.find? (fun e => e.id = sub.exam_id ∧ e.user_id = uid) with
  | none => (db, .error ⟨404, "Exam not found"⟩)
  | some exam =>
    if exam.completed_at.isSome then
      (db, .error ⟨400, "Exam already submitted"⟩)
    else
      match gradeLoop exam ⟨0, [], []⟩ sub.answers with
      | .error e => (db, .error e)
      | .ok st =>
        if exam.total_questions = 0 then
          (db, .error ⟨500, "ZeroDivisionError: division by zero"⟩)
        else
          let score_percentage := pyScore st.correct_count exam.total_questions
          let weak_topics_names := weakTopicNames st.weak
          let exam' : ExamAttempt :=
            { exam with
              user_answers := sub.answers
              time_taken_seconds := sub.time_taken_seconds
              correct_count := st.correct_count
              score_percentage := score_percentage
              weak_topics := some weak_topics_names
              completed_at := some now }
          let db' : DB :=
            { db with
              attempts := updateFirst
                (fun e => e.id = sub.exam_id ∧ e.user_id = uid)
                (fun _ => exam') db.attempts
              user_subjects := updateSubjectStats db.user_subjects uid
                exam.subject exam.total_questions st.correct_count }
          (db', .ok
            { exam_id := exam.id
              total_questions := exam.total_questions
              correct_count := st.correct_count
              score_percentage := score_percentage
              time_taken_seconds := sub.time_taken_seconds
              weak_topics := weak_topics_names
              detailed_results := st.detailed
              recommendations := recommendationsFor score_percentage
                weak_topics_names exam.subject })

/-- The subject-statistics update of `solve_question`
(questions.py lines 139-158): when the AI reported a truthy subject,
increment the first matching row's `total_questions_attempted`, or insert
a fresh row with `total_questions_attempted = 1` (and the column default
`correct_answers = 0`).  `new_id` models the DB-assigned primary key. -/
def solveQuestionStats (subjects : List UserSubject) (uid : Nat)
    (subject_name : Option String) (new_id : Nat) : List UserSubject :=
  if strTruthy subject_name then
    let s := subject_name.getD ""
    if subjects.any (fun r => r.user_id = uid ∧ r.subject_name = s) then
      updateFirst (fun r => r.user_id = uid ∧ r.subject_name = s)
        (fun r => { r with
          total_questions_attempted := r.total_questions_attempted + 1 })
        subjects
    else
      subjects ++ [{ id := new_id, user_id := uid, subject_name := s
                     total_questions_attempted := 1, correct_answers := 0 }]
  else subjects

/-- The loop body of `calculate_study_streak` (dashboard.py lines
377-387), with dates as day numbers (`Int`).  `current` is
`current_date`, `streak` the accumulator; the `else` arm is the
`break`. -/
def streakLoop : List Int → Int → Nat → Nat
  | [], _, streak => streak
  | d :: ds, current, streak =>
    if d = current ∨ d = current - streak then
      streakLoop ds d (streak + 1)
    else streak

/-- `calculate_study_streak` (dashboard.py lines 361-387): takes the
user's distinct activity dates sorted descending (the SQL query) and
today's date, returns the streak. -/
def calculate_study_streak (activity_dates : List Int) (today : Int) : Nat :=
  if activity_dates = [] then 0
  else streakLoop activity_dates today 0

/-- Whether the submitted `(position, answer)` pair matches the attempt's
answer key (the `is_correct` test of exams.py line 227). -/
def isCorrectAns (exam : ExamAttempt) (qa : Int × String) : Bool :=
  pyGet exam.correct_answers (toString qa.1) = some qa.2

/-- The topics of the incorrect submitted positions, in submission order:
exactly the topics the grading loop feeds to the miss counter.  Only
submitted positions appear; omitted positions of the attempt contribute
nothing. -/
def missedTopics (exam : ExamAttempt) (answers : List (Int × String)) :
    List String :=
  answers.filterMap (fun qa =>
    if isCorrectAns exam qa then none
    else (pyIndex exam.questions (qa.1 - 1)).map (fun q => q.topic.getD "Unknown"))

/-- Build the per-topic miss counter from a list of missed topics, in
encounter order. -/
def countTopics (ts : List String) : List (String × Nat) :=
  ts.foldl dictIncr []

/-- Projection of a route result onto its successful response. -/
def resultOf {α : Type} (x : DB × Except HTTPException α) : Option α :=
  match x.2 with
  | .ok r => some r
  | .error _ => none

/-- `random.sample` replaced by a deterministic prefix selection; it
satisfies the two properties of `random.sample` that the theorems assume
(correct length, elements drawn from the pool). -/
def takeSample : {α : Type} → List α → Nat → List α :=
  fun l k => l.take k

/-- A concrete two-question attempt used in the concrete-input theorems:
position 1 has key "A" and topic "T1", position 2 has key "B" and topic
"T2". -/
def examFix : ExamAttempt :=
  { id := 1
    user_id := 7
    exam_type := "WAEC"
    subject := "Mathematics"
    year := none
    questions :=
      [ { question := "Q1", options := [("A", "1")]
          correct_answer := some "A", topic := some "T1" }
      , { question := "Q2", options := [("A", "1")]
          correct_answer := some "B", topic := some "T2" } ]
    user_answers := []
    correct_answers := [("1", "A"), ("2", "B")]
    time_limit_minutes := 60
    time_taken_seconds := 0
    total_questions := 2
    correct_count := 0
    score_percentage := 0
    weak_topics := none
    started_at := 0
    completed_at := none }

/-- A database holding only `examFix`. -/
def dbFix : DB :=
  { past_questions := [], attempts := [examFix], user_subjects := []
    next_id := 2 }

/-- A nine-question attempt whose every position has key "A" and topic
"T", for the score-truncation example. -/
def examNine : ExamAttempt :=
  { examFix with
    id := 9
    questions := List.replicate 9
      { question := "Q", options := [], correct_answer := some "A"
        topic := some "T" }
    correct_answers := (List.range 9).map (fun i => (toString (i + 1), "A"))
    total_questions := 9 }

/-- A database holding only `examNine`. -/
def dbNine : DB :=
  { past_questions := [], attempts := [examNine], user_subjects := []
    next_id := 10 }

/-- A submission answering the first seven positions of `examNine`
correctly. -/
def subSeven : ExamSubmissionRequest :=
  { exam_id := 9
    answers := (List.range 7).map (fun i => ((i : Int) + 1, "A"))
    time_taken_seconds := 30 }

/-- `examFix` after completion, for the resubmission theorems. -/
def examDone : ExamAttempt := { examFix with completed_at := some 5 }

/-- A database holding only the completed attempt `examDone`. -/
def dbDone : DB :=
  { past_questions := [], attempts := [examDone], user_subjects := []
    next_id := 2 }

/-- C1: if the attempt found for the submission already has `completed_at`
set, `submit_exam` rejects with the already-submitted error (HTTP 400)
whatever the answer payload is, and returns the database unchanged, so no
stored field of the attempt (user_answers, correct_count,
score_percentage, weak_topics, completed_at) is modified: an attempt is
graded at most once. -/
theorem submit_exam_rejects_completed
    (db : DB) (uid : Nat) (sub : ExamSubmissionRequest) (now : Nat)
    (exam : ExamAttempt)
    (hfind : db.attempts.find?
      (fun e => e.id = sub.exam_id ∧ e.user_id = uid) = some exam)
    (hdone : exam.completed_at.isSome) :
    submit_exam db uid sub now =
      (db, .error ⟨400, "Exam already submitted"⟩) := by
  unfold submit_exam
  rw [hfind]
  simp [hdone]

/-- Witness for C1: resubmitting the completed attempt `examDone` is
rejected and the database is returned unchanged. -/
theorem submit_exam_rejects_completed_witness :
    submit_exam dbDone 7 ⟨1, [(1, "A")], 30⟩ 99 =
      (dbDone, .error ⟨400, "Exam already submitted"⟩) :=
  submit_exam_rejects_completed dbDone 7 ⟨1, [(1, "A")], 30⟩ 99 examDone
    (by decide) (by decide)

/-- C9, code evaluation: the streak loop returns 1 for one day of activity
(today) and 2 for two consecutive days, but for three consecutive days
ending today (dates 2, 1, 0 with today = 2) it also returns 2 instead of
3 — after the second step it compares against `current_date -
timedelta(days=streak)` with both `current_date` moved back and `streak`
grown, so the walk breaks one day early. -/
theorem calculate_study_streak_stops_at_two :
    calculate_study_streak [0] 0 = 1 ∧
    calculate_study_streak [1, 0] 1 = 2 ∧
    calculate_study_streak [2, 1, 0] 2 = 2 ∧
    calculate_study_streak [2, 1, 0] 2 ≠ 3 := by decide

/-- C6, counterexample: a request with both optional fields omitted is
validated with `number_of_questions = 40` and `time_limit_minutes = 60`
(the pydantic schema defaults), not 50 and 90 as claimed. -/
theorem mock_exam_request_defaults_cex :
    mkMockExamRequest "JAMB" "Mathematics" none none none =
      .ok { exam_type := "JAMB", subject := "Mathematics", year := none
            number_of_questions := 40, time_limit_minutes := 60 } ∧
    ((40 : Nat), (60 : Nat)) ≠ ((50 : Nat), (90 : Nat)) := by
  exact ⟨rfl, by decide⟩

/-- C6, amended: omitted fields default to 40 questions and 60 minutes
(the schema defaults; the bank path's `or 50` / `or 90` fallbacks never
change a validated value, since validation forces nonzero values);
caller-supplied values are accepted exactly when `number_of_questions ∈
[10,100]` and `time_limit_minutes ∈ [15,180]`, and rejected as validation
errors otherwise. -/
theorem mock_exam_request_defaults_and_bounds :
    (∀ et s y, mkMockExamRequest et s y none none =
      .ok { exam_type := et, subject := s, year := y
            number_of_questions := 40, time_limit_minutes := 60 }) ∧
    (∀ et s y (n t : Int),
      ((∃ r, mkMockExamRequest et s y (some n) (some t) = .ok r) ↔
        (10 ≤ n ∧ n ≤ 100 ∧ 15 ≤ t ∧ t ≤ 180)) ∧
      ∀ r, mkMockExamRequest et s y (some n) (some t) = .ok r →
        r.number_of_questions = n.toNat ∧ r.time_limit_minutes = t.toNat) ∧
    (∀ n, 10 ≤ n → pyOrNat n 50 = n) ∧
    (∀ t, 15 ≤ t → pyOrNat t 90 = t) := by
  refine ⟨fun et s y => rfl, ?_, ?_, ?_⟩
  · intro et s y n t
    constructor
    · constructor
      · rintro ⟨r, hr⟩
        unfold mkMockExamRequest at hr
        simp only [Option.getD_some] at hr
        by_cases h1 : n < 10 ∨ 100 < n
        · rw [if_pos h1] at hr; exact absurd hr (by simp)
        · by_cases h2 : t < 15 ∨ 180 < t
          · rw [if_neg h1, if_pos h2] at hr; exact absurd hr (by simp)
          · omega
      · rintro ⟨hn1, hn2, ht1, ht2⟩
        refine ⟨{ exam_type := et, subject := s, year := y
                  number_of_questions := n.toNat
                  time_limit_minutes := t.toNat }, ?_⟩
        unfold mkMockExamRequest
        simp only [Option.getD_some]
        rw [if_neg (by omega), if_neg (by omega)]
    · intro r hr
      unfold mkMockExamRequest at hr
      simp only [Option.getD_some] at hr
      by_cases h1 : n < 10 ∨ 100 < n
      · rw [if_pos h1] at hr; exact absurd hr (by simp)
      · by_cases h2 : t < 15 ∨ 180 < t
        · rw [if_neg h1, if_pos h2] at hr; exact absurd hr (by simp)
        · rw [if_neg h1, if_neg h2] at hr
          cases hr
          exact ⟨rfl, rfl⟩
  · intro n hn
    unfold pyOrNat
    rw [if_neg (by omega)]
  · intro t ht
    unfold pyOrNat
    rw [if_neg (by omega)]

/-- Witness for the amended C6: a request supplying 10 questions and 180
minutes validates to exactly those values, an omitted pair defaults to
(40, 60), and a validated count passes the `or 50` fallback unchanged. -/
theorem mock_exam_request_defaults_and_bounds_witness :
    mkMockExamRequest "WAEC" "Mathematics" none none none =
      .ok { exam_type := "WAEC", subject := "Mathematics", year := none
            number_of_questions := 40, time_limit_minutes := 60 } ∧
    (∃ r, mkMockExamRequest "WAEC" "Mathematics" none (some 10) (some 180) =
      .ok r) ∧
    pyOrNat 40 50 = 40 :=
  ⟨mock_exam_request_defaults_and_bounds.1 "WAEC" "Mathematics" none,
   (mock_exam_request_defaults_and_bounds.2.1 "WAEC" "Mathematics" none
      10 180).1.mpr (by decide),
   mock_exam_request_defaults_and_bounds.2.2.1 40 (by decide)⟩

/-- C7: when the bank query matches nothing and the sample bank has no
entries for the subject, `create_mock_exam` fails with the HTTP 400
content-availability error ("No questions available ...") and the
database — in particular the `exam_attempts` table — is returned
unchanged: no `ExamAttempt` is persisted. -/
theorem create_exam_no_questions_error
    (sample : {α : Type} → List α → Nat → List α)
    (db : DB) (uid : Nat) (req : MockExamRequest) (now : Nat)
    (hbank : db.past_questions.filter (matchesQuery req) = [])
    (hsample : SAMPLE_QUESTIONS req.subject = []) :
    create_mock_exam sample db uid req now =
      (db, .error ⟨400, "No questions available for " ++ req.subject ++ " "
        ++ req.exam_type
        ++ ". Please upload past questions first or try a different subject."⟩) := by
  unfold create_mock_exam
  rw [hbank]
  simp [hsample]

/-- Witness for C7: an empty database and the subject "Physics" (absent
from both banks) yield the 400 error and leave the database unchanged. -/
theorem create_exam_no_questions_error_witness :
    create_mock_exam takeSample ⟨[], [], [], 1⟩ 7
        ⟨"WAEC", "Physics", none, 40, 60⟩ 0 =
      (⟨[], [], [], 1⟩, .error ⟨400,
        "No questions available for " ++ "Physics" ++ " " ++ "WAEC"
        ++ ". Please upload past questions first or try a different subject."⟩) :=
  create_exam_no_questions_error takeSample ⟨[], [], [], 1⟩ 7
    ⟨"WAEC", "Physics", none, 40, 60⟩ 0 rfl rfl

/-- If every submitted position lies in `[1, len(questions)]`, every
iteration's list lookup succeeds, so the grading loop raises no error. -/
lemma gradeLoop_ok_of_valid (exam : ExamAttempt) :
    ∀ (answers : List (Int × String)) (st : GradeState),
      (∀ qa ∈ answers, 1 ≤ qa.1 ∧ qa.1 ≤ (exam.questions.length : Int)) →
      ∃ st', gradeLoop exam st answers = .ok st' := by
  intro answers
  induction answers with
  | nil => exact fun st _ => ⟨st, rfl⟩
  | cons qa rest ih =>
    intro st hv
    obtain ⟨h1, h2⟩ := hv qa (List.mem_cons_self qa rest)
    have hlt : (qa.1 - 1).toNat < exam.questions.length := by omega
    have hq : pyIndex exam.questions (qa.1 - 1) =
        some (exam.questions.get ⟨(qa.1 - 1).toNat, hlt⟩) := by
      unfold pyIndex
      rw [if_pos (by omega : (0 : Int) ≤ qa.1 - 1)]
      exact List.get?_eq_get hlt
    have hstep : ∃ st1, gradeStep exam st qa = .ok st1 := by
      unfold gradeStep
      rw [hq]
      dsimp only
      by_cases hc : pyGet exam.correct_answers (toString qa.1) = some qa.2
      · rw [if_pos hc]; exact ⟨_, rfl⟩
      · rw [if_neg hc]; exact ⟨_, rfl⟩
    obtain ⟨st1, hstep⟩ := hstep
    obtain ⟨st', h'⟩ := ih st1 (fun x hx => hv x (List.mem_cons_of_mem qa hx))
    refine ⟨st', ?_⟩
    unfold gradeLoop
    rw [hstep]
    exact h'

/-- What one successful grading run accumulates: `correct_count` grows by
the number of submitted key matches, and the weak counter is the
encounter-ordered miss counter of the incorrect submitted positions. -/
lemma gradeLoop_counts (exam : ExamAttempt) :
    ∀ (answers : List (Int × String)) (st st' : GradeState),
      gradeLoop exam st answers = .ok st' →
      st'.correct_count = st.correct_count + answers.countP (isCorrectAns exam) ∧
      st'.weak = (missedTopics exam answers).foldl dictIncr st.weak := by
  intro answers
  induction answers with
  | nil =>
    intro st st' h
    cases h
    simp [missedTopics]
  | cons qa rest ih =>
    intro st st' h
    unfold gradeLoop at h
    rcases hstep : gradeStep exam st qa with e | st1
    · rw [hstep] at h; cases h
    · rw [hstep] at h
      obtain ⟨hc1, hw1⟩ := ih st1 st' h
      unfold gradeStep at hstep
      rcases hidx : pyIndex exam.questions (qa.1 - 1) with _ | q
      · rw [hidx] at hstep; cases hstep
      · rw [hidx] at hstep
        dsimp only at hstep
        by_cases hc : pyGet exam.correct_answers (toString qa.1) = some qa.2
        · rw [if_pos hc] at hstep
          cases hstep
          have ht : isCorrectAns exam qa = true := by
            unfold isCorrectAns; exact decide_eq_true hc
          constructor
          · rw [hc1, List.countP_cons, ht]
            simp
            omega
          · rw [hw1]
            unfold missedTopics
            rw [List.filterMap_cons]
            simp only [ht, if_true]
        · rw [if_neg hc] at hstep
          cases hstep
          have hb : isCorrectAns exam qa = false := by
            unfold isCorrectAns
            exact decide_eq_false hc
          constructor
          · rw [hc1, List.countP_cons, hb]
            simp
          · rw [hw1]
            unfold missedTopics
            rw [List.filterMap_cons]
            simp only [hb, if_false, hidx, Option.map_some]
            rfl

/-- Unfolding of the successful path of `submit_exam`. -/
lemma submit_exam_eq_ok (db : DB) (uid : Nat) (sub : ExamSubmissionRequest)
    (now : Nat) (exam : ExamAttempt) (st : GradeState)
    (hfind : db.attempts.find?
      (fun e => e.id = sub.exam_id ∧ e.user_id = uid) = some exam)
    (hdone : exam.completed_at = none)
    (hgrade : gradeLoop exam ⟨0, [], []⟩ sub.answers = .ok st)
    (htot : exam.total_questions ≠ 0) :
    submit_exam db uid sub now =
      ({ db with
          attempts := updateFirst
            (fun e => e.id = sub.exam_id ∧ e.user_id = uid)
            (fun _ => { exam with
              user_answers := sub.answers
              time_taken_seconds := sub.time_taken_seconds
              correct_count := st.correct_count
              score_percentage := pyScore st.correct_count exam.total_questions
              weak_topics := some (weakTopicNames st.weak)
              completed_at := some now }) db.attempts
          user_subjects := updateSubjectStats db.user_subjects uid exam.subject
            exam.total_questions st.correct_count },
       .ok { exam_id := exam.id
             total_questions := exam.total_questions
             correct_count := st.correct_count
             score_percentage := pyScore st.correct_count exam.total_questions
             time_taken_seconds := sub.time_taken_seconds
             weak_topics := weakTopicNames st.weak
             detailed_results := st.detailed
             recommendations := recommendationsFor
               (pyScore st.correct_count exam.total_questions)
               (weakTopicNames st.weak) exam.subject }) := by
  unfold submit_exam
  rw [hfind]
  dsimp only
  rw [hdone]
  dsimp only [Option.isSome_none]
  rw [if_neg (by simp)]
  rw [hgrade]
  dsimp only
  rw [if_neg htot]

/-- Inversion of a successful `submit_exam` run. -/
lemma submit_exam_ok_inv (db : DB) (uid : Nat) (sub : ExamSubmissionRequest)
    (now : Nat) (db2 : DB) (r : ExamResultResponse)
    (h : submit_exam db uid sub now = (db2, .ok r)) :
    ∃ exam st,
      db.attempts.find?
        (fun e => e.id = sub.exam_id ∧ e.user_id = uid) = some exam ∧
      exam.completed_at = none ∧
      gradeLoop exam ⟨0, [], []⟩ sub.answers = .ok st ∧
      exam.total_questions ≠ 0 ∧
      db2.user_subjects = updateSubjectStats db.user_subjects uid exam.subject
        exam.total_questions st.correct_count ∧
      r = { exam_id := exam.id
            total_questions := exam.total_questions
            correct_count := st.correct_count
            score_percentage := pyScore st.correct_count exam.total_questions
            time_taken_seconds := sub.time_taken_seconds
            weak_topics := weakTopicNames st.weak
            detailed_results := st.detailed
            recommendations := recommendationsFor
              (pyScore st.correct_count exam.total_questions)
              (weakTopicNames st.weak) exam.subject } := by
  unfold submit_exam at h
  rcases hfind : db.attempts.find?
      (fun e => e.id = sub.exam_id ∧ e.user_id = uid) with _ | exam
  · rw [hfind] at h
    simp at h
  · rw [hfind] at h
    dsimp only at h
    by_cases hdone : exam.completed_at.isSome
    · rw [if_pos hdone] at h
      simp at h
    · rw [if_neg hdone] at h
      rcases hgrade : gradeLoop exam ⟨0, [], []⟩ sub.answers with e | st
      · rw [hgrade] at h
        simp at h
      · rw [hgrade] at h
        dsimp only at h
        by_cases htot : exam.total_questions = 0
        · rw [if_pos htot] at h
          simp at h
        · rw [if_neg htot] at h
          injection h with h1 h2
          injection h2 with h2
          exact ⟨exam, st, hfind, Option.not_isSome_iff_eq_none.mp hdone,
            hgrade, htot, by rw [← h1], h2.symm⟩

/-- Inserting preserves the orderliness of a count-descending list. -/
lemma insertDesc_perm (x : String × Nat) (l : List (String × Nat)) :
    List.Perm (insertDesc x l) (x :: l) := by
  induction l with
  | nil => exact List.Perm.refl _
  | cons y ys ih =>
    unfold insertDesc
    by_cases h : y.2 ≤ x.2
    · rw [if_pos h]
    · rw [if_neg h]
      exact (ih.cons y).trans (List.Perm.swap x y ys)

/-- The stable sort is a permutation of its input. -/
lemma sortDesc_perm (l : List (String × Nat)) : List.Perm (sortDesc l) l := by
  induction l with
  | nil => exact List.Perm.refl _
  | cons x xs ih =>
    unfold sortDesc
    exact (insertDesc_perm x (sortDesc xs)).trans (ih.cons x)

/-- Insertion keeps counts pairwise non-increasing. -/
lemma insertDesc_sorted (x : String × Nat) (l : List (String × Nat))
    (h : l.Pairwise (fun a b => b.2 ≤ a.2)) :
    (insertDesc x l).Pairwise (fun a b => b.2 ≤ a.2) := by
  induction l with
  | nil => simp [insertDesc]
  | cons y ys ih =>
    obtain ⟨hy, hys⟩ := List.pairwise_cons.mp h
    unfold insertDesc
    by_cases hxy : y.2 ≤ x.2
    · rw [if_pos hxy]
      refine List.pairwise_cons.mpr ⟨?_, h⟩
      intro z hz
      rcases List.mem_cons.mp hz with hz | hz
      · exact hz ▸ hxy
      · exact le_trans (hy z hz) hxy
    · rw [if_neg hxy]
      refine List.pairwise_cons.mpr ⟨?_, ih hys⟩
      intro z hz
      rcases List.mem_cons.mp ((insertDesc_perm x ys).subset hz) with hz | hz
      · exact hz ▸ le_of_lt (lt_of_not_le hxy)
      · exact hy z hz


/-- Sorted output contains its input as a subsequence-preserving
supersequence: inserting only adds one element somewhere. -/
lemma sublist_insertDesc (x : String × Nat) (l : List (String × Nat)) :
    List.Sublist l (insertDesc x l) := by
  induction l with
  | nil => exact List.nil_sublist _
  | cons y ys ih =>
    unfold insertDesc
    by_cases h : y.2 ≤ x.2
    · rw [if_pos h]
      exact (List.Sublist.refl (y :: ys)).cons x
    · rw [if_neg h]
      exact ih.cons₂ y

/-- Inserting `a` places it before every element of count at most `a.2`:
the pair order `a` then `b` is realised whenever `b` is already present
with a count not larger than `a`'s. -/
lemma insertDesc_pair (a b : String × Nat) (t : List (String × Nat))
    (hb : b ∈ t) (hle : b.2 ≤ a.2) : List.Sublist [a, b] (insertDesc a t) := by
  induction t with
  | nil => cases hb
  | cons y ys ih =>
    unfold insertDesc
    by_cases h : y.2 ≤ a.2
    · rw [if_pos h]
      exact (List.singleton_sublist.mpr hb).cons₂ a
    · rw [if_neg h]
      rcases List.mem_cons.mp hb with hby | hbys
      · exact absurd (hby ▸ hle) h
      · exact (ih hbys).cons y

/-- Stability of `sortDesc`: if `a` precedes `b` in the input and `a`'s
count is at least `b`'s (in particular on ties), `a` still precedes `b`
in the sorted output. -/
lemma sortDesc_stable : ∀ (w : List (String × Nat)) (a b : String × Nat),
    List.Sublist [a, b] w → b.2 ≤ a.2 → List.Sublist [a, b] (sortDesc w) := by
  intro w
  induction w with
  | nil => intro a b h _; cases h
  | cons x xs ih =>
    intro a b h hle
    unfold sortDesc
    cases h with
    | cons _ h2 => exact (ih a b h2 hle).trans (sublist_insertDesc x (sortDesc xs))
    | cons₂ _ h2 =>
      exact insertDesc_pair x b (sortDesc xs)
        ((sortDesc_perm xs).mem_iff.mpr (List.singleton_sublist.mp h2)) hle

/-- The sorted ranking has pairwise non-increasing counts. -/
lemma sortDesc_sorted (l : List (String × Nat)) :
    (sortDesc l).Pairwise (fun a b => b.2 ≤ a.2) := by
  induction l with
  | nil => simp [sortDesc]
  | cons x xs ih => exact insertDesc_sorted x (sortDesc xs) ih

/-- C3, counterexample: `examFix` has two questions; submitting only
position 1 (correctly) succeeds with `correct_count = 1` but an empty
weak-topic list — the omitted position 2 does NOT increment the miss
counter of its topic "T2", so the claimed per-topic miss increment for
omitted positions does not happen (it would force `weak_topics = ["T2"]`).
-/
theorem omitted_positions_not_counted_cex :
    (resultOf (submit_exam dbFix 7 ⟨1, [(1, "A")], 30⟩ 99)).map
      (fun r => (r.correct_count, r.weak_topics)) = some (1, []) ∧
    countTopics (missedTopics examFix [(1, "A")]) = [] ∧
    some ((1 : Nat), ([] : List String)) ≠ some (1, ["T2"]) := by
  exact ⟨rfl, rfl, by decide⟩

/-- C3, amended: a sparse answer map over an attempt raises no error as
long as the submitted positions are in range; `correct_count` counts the
key matches among the submitted positions only; and omitted positions
are ignored entirely — the per-topic miss counters are built solely from
the submitted incorrect positions (`missedTopics` ranges over the
submitted entries only), so omitted positions do not increment any
topic's miss counter. -/
theorem sparse_submission_ignores_omitted
    (db : DB) (uid : Nat) (sub : ExamSubmissionRequest) (now : Nat)
    (exam : ExamAttempt)
    (hfind : db.attempts.find?
      (fun e => e.id = sub.exam_id ∧ e.user_id = uid) = some exam)
    (hdone : exam.completed_at = none)
    (htot : exam.total_questions ≠ 0)
    (hv : ∀ qa ∈ sub.answers, 1 ≤ qa.1 ∧ qa.1 ≤ (exam.questions.length : Int)) :
    ∃ db2 r, submit_exam db uid sub now = (db2, .ok r) ∧
      r.correct_count = sub.answers.countP (isCorrectAns exam) ∧
      r.weak_topics = weakTopicNames (countTopics (missedTopics exam sub.answers)) := by
  obtain ⟨st, hgrade⟩ := gradeLoop_ok_of_valid exam sub.answers ⟨0, [], []⟩ hv
  obtain ⟨hc, hw⟩ := gradeLoop_counts exam sub.answers ⟨0, [], []⟩ st hgrade
  refine ⟨_, _, submit_exam_eq_ok db uid sub now exam st hfind hdone hgrade htot,
    ?_, ?_⟩
  · simpa using hc
  · show weakTopicNames st.weak = _
    rw [hw]
    rfl

/-- Witness for the amended C3: answering only position 1 of the
two-question attempt `examFix` succeeds, scores the one match, and the
miss counters come from the submitted positions only. -/
theorem sparse_submission_ignores_omitted_witness :
    ∃ db2 r, submit_exam dbFix 7 ⟨1, [(1, "A")], 30⟩ 99 = (db2, .ok r) ∧
      r.correct_count = [((1 : Int), "A")].countP (isCorrectAns examFix) ∧
      r.weak_topics =
        weakTopicNames (countTopics (missedTopics examFix [(1, "A")])) :=
  sparse_submission_ignores_omitted dbFix 7 ⟨1, [(1, "A")], 30⟩ 99 examFix
    rfl rfl (by decide) (by decide)

/-- A 100-question attempt whose every position has key "A", for the
double-rounding score example. -/
def examHundred : ExamAttempt :=
  { examFix with
    id := 100
    questions := List.replicate 100
      { question := "Q", options := [], correct_answer := some "A"
        topic := some "T" }
    correct_answers := (List.range 100).map (fun i => (toString (i + 1), "A"))
    total_questions := 100 }

/-- A database holding only `examHundred`. -/
def dbHundred : DB :=
  { past_questions := [], attempts := [examHundred], user_subjects := []
    next_id := 101 }

/-- A submission answering the first 29 positions of `examHundred`
correctly. -/
def subTwentyNine : ExamSubmissionRequest :=
  { exam_id := 100
    answers := (List.range 29).map (fun i => ((i : Int) + 1, "A"))
    time_taken_seconds := 30 }

/-- C4, counterexample: grading 29 correct out of 100 stores a score of
28, while the floor of the exact ratio `100 * 29 / 100` is 29: the
binary64 value of 29/100 is slightly below 0.29, and multiplying by 100
lands just under 29, so `int()` truncates to 28.  The claimed floor
identity therefore fails at a reachable input. -/
theorem score_floor_identity_cex :
    (resultOf (submit_exam dbHundred 7 subTwentyNine 99)).map
      (fun x => x.score_percentage) = some 28 ∧
    pyScore 29 100 = 28 ∧
    100 * 29 / 100 = 29 ∧ (28 : Nat) ≠ 29 := by
  exact ⟨rfl, rfl, rfl, by decide⟩

/-- The binary64 division of any positive integer by itself is exactly
1.0 (`2^52 / 2^52`). -/
lemma floatDiv_self (c : Nat) (hc : 1 ≤ c) : floatDiv c c = ⟨2 ^ 52, 52⟩ := by
  have hup : upLog c c c 0 = 0 := by
    cases c with
    | zero => omega
    | succ k =>
      show (if (k + 1) * 2 ^ (0 + 1) ≤ k + 1 then _ else 0) = 0
      have h2 : (k + 1) * 2 ^ (0 + 1) = (k + 1) * 2 := by norm_num
      rw [if_neg (by omega)]
  have hlog : floorLog2Ratio c c = 0 := by
    unfold floorLog2Ratio
    rw [if_pos (le_refl c), hup]
    rfl
  unfold floatDiv
  rw [if_neg (by omega), hlog]
  have hround : roundHalfEvenNat (c * 2 ^ (52 - (0 : Int)).toNat) c = 2 ^ 52 := by
    unfold roundHalfEvenNat
    rw [show ((52 : Int) - 0).toNat = 52 from rfl]
    rw [Nat.mul_mod_right, Nat.mul_div_cancel_left _ (by omega : 0 < c)]
    rw [if_pos (by omega)]
  rw [if_pos (by norm_num : (0 : Int) ≤ 52 - 0), hround]
  norm_num

/-- C4, amended: the stored score is the integer truncation (toward
zero, never rounding) of the binary64 computation
`(correct_count / total_questions) * 100`, modelled exactly by
`pyScore`; at 7 of 9 this gives 77, not 78 (the exact value exceeds
77.5, so rounding would give 78), all-correct submissions score exactly
100 and none-correct exactly 0 — but by double rounding the result can
fall one below the exact floor, as at 29 of 100. -/
theorem score_percentage_truncates
    (db : DB) (uid : Nat) (sub : ExamSubmissionRequest) (now : Nat)
    (db2 : DB) (r : ExamResultResponse)
    (hok : submit_exam db uid sub now = (db2, .ok r)) :
    r.score_percentage = pyScore r.correct_count r.total_questions ∧
    (resultOf (submit_exam dbNine 7 subSeven 99)).map
      (fun x => x.score_percentage) = some 77 ∧
    pyScore 7 9 = 77 ∧ (155 / 2 : ℚ) < 700 / 9 ∧ (77 : Nat) ≠ 78 ∧
    (∀ c : Nat, 1 ≤ c → pyScore c c = 100) ∧
    (∀ t : Nat, pyScore 0 t = 0) := by
  obtain ⟨exam, st, hfind, hdone, hgrade, htot, hdbs, hr⟩ :=
    submit_exam_ok_inv db uid sub now db2 r hok
  subst hr
  refine ⟨rfl, rfl, rfl, by norm_num, by decide, ?_,
    fun t => by simp [pyScore, floatDiv, floatMulNat, truncDy]⟩
  intro c hc
  unfold pyScore
  rw [floatDiv_self c hc]
  rfl

/-- Witness for the amended C4: the nine-question attempt with seven
correct answers stores `pyScore 7 9 = 77`. -/
theorem score_percentage_truncates_witness :
    ∃ db2 r, submit_exam dbNine 7 subSeven 99 = (db2, .ok r) ∧
      r.score_percentage = pyScore r.correct_count r.total_questions := by
  obtain ⟨db2, r, hok⟩ :
      ∃ db2 r, submit_exam dbNine 7 subSeven 99 = (db2, .ok r) := ⟨_, _, rfl⟩
  exact ⟨db2, r, hok,
    (score_percentage_truncates dbNine 7 subSeven 99 db2 r hok).1⟩

/-- C5: the weak-topic list of a graded submission is obtained by
counting, per topic and in first-encounter order, the misses of the
incorrect submitted positions (label "Unknown" when the question has no
topic — built into `missedTopics`), stably sorting the counters by count
descending and keeping the first three topic names.  The sort is a
permutation, counts along it are non-increasing, and any pair whose
earlier element has at least the later's count keeps its relative order
(stability on ties); on miss counts Algebra:3, Geometry:3, Trig:1
encountered in that order, the ranking is Algebra, Geometry, Trig. -/
theorem weak_topics_ranking
    (db : DB) (uid : Nat) (sub : ExamSubmissionRequest) (now : Nat)
    (db2 : DB) (r : ExamResultResponse) (exam : ExamAttempt)
    (hfind : db.attempts.find?
      (fun e => e.id = sub.exam_id ∧ e.user_id = uid) = some exam)
    (hok : submit_exam db uid sub now = (db2, .ok r)) :
    r.weak_topics = weakTopicNames (countTopics (missedTopics exam sub.answers)) ∧
    (∀ w : List (String × Nat),
      List.Perm (sortDesc w) w ∧
      (sortDesc w).Pairwise (fun a b => b.2 ≤ a.2) ∧
      (∀ a b, List.Sublist [a, b] w → b.2 ≤ a.2 →
        List.Sublist [a, b] (sortDesc w)) ∧
      weakTopicNames w = ((sortDesc w).take 3).map Prod.fst) ∧
    weakTopicNames [("Algebra", 3), ("Geometry", 3), ("Trig", 1)] =
      ["Algebra", "Geometry", "Trig"] := by
  obtain ⟨exam2, st, hfind2, hdone, hgrade, htot, hdbs, hr⟩ :=
    submit_exam_ok_inv db uid sub now db2 r hok
  have hex : exam2 = exam := by
    have h12 := hfind.symm.trans hfind2
    injection h12 with h12
    exact h12.symm
  rw [hex] at hgrade
  subst hr
  refine ⟨?_, ?_, rfl⟩
  · show weakTopicNames st.weak = _
    obtain ⟨_, hw⟩ := gradeLoop_counts exam sub.answers ⟨0, [], []⟩ st hgrade
    rw [hw]
    rfl
  · intro w
    exact ⟨sortDesc_perm w, sortDesc_sorted w,
      fun a b h hle => sortDesc_stable w a b h hle, rfl⟩

/-- Witness for C5: the sparse submission on `examFix` has its weak-topic
list equal to the ranking pipeline's output. -/
theorem weak_topics_ranking_witness :
    ∃ db2 r, submit_exam dbFix 7 ⟨1, [(1, "X"), (2, "Y")], 30⟩ 99 =
      (db2, .ok r) ∧
    r.weak_topics =
      weakTopicNames (countTopics (missedTopics examFix [(1, "X"), (2, "Y")])) := by
  obtain ⟨db2, r, hok⟩ :
      ∃ db2 r, submit_exam dbFix 7 ⟨1, [(1, "X"), (2, "Y")], 30⟩ 99 =
        (db2, .ok r) := ⟨_, _, rfl⟩
  exact ⟨db2, r, hok,
    (weak_topics_ranking dbFix 7 ⟨1, [(1, "X"), (2, "Y")], 30⟩ 99 db2 r examFix
      rfl hok).1⟩

/-- `takeSample` satisfies the two properties of `random.sample` assumed
by the theorems. -/
lemma takeSample_valid : ∀ (α : Type) (l : List α) (k : Nat), k ≤ l.length →
    (takeSample l k).length = k ∧ ∀ x ∈ takeSample l k, x ∈ l := by
  intro α l k hk
  unfold takeSample
  constructor
  · rw [List.length_take k l]
    omega
  · exact fun x hx => List.mem_of_mem_take hx

/-- A bank entry matching the witness request below. -/
def pqFix : PastQuestion :=
  { exam_type := "WAEC", subject := "Mathematics", year := some "2020"
    question_text := "What is 2 + 2?", options := [("A", "4"), ("B", "5")]
    correct_answer := some "A", topic := some "Arithmetic" }

/-- A database whose question bank holds exactly `pqFix`. -/
def dbBank : DB :=
  { past_questions := [pqFix], attempts := [], user_subjects := []
    next_id := 1 }

/-- C2: on the bank path (at least one matching entry), exam creation
always succeeds — fewer matches than requested is not an error — the
number of questions returned to the student is
`min(requested_count, matching entries)`, and every returned question has
a null `correct_answer`.  `sample` is any function with `random.sample`'s
guarantees; `requested_count ≥ 10` holds for every validated request. -/
theorem create_exam_bank_count_and_hidden
    (sample : {α : Type} → List α → Nat → List α)
    (db : DB) (uid : Nat) (req : MockExamRequest) (now : Nat)
    (hs : ∀ (α : Type) (l : List α) (k : Nat), k ≤ l.length →
      (@sample α l k).length = k ∧ ∀ x ∈ @sample α l k, x ∈ l)
    (hn : 10 ≤ req.number_of_questions)
    (hpool : db.past_questions.filter (matchesQuery req) ≠ []) :
    ∃ db2 resp, create_mock_exam sample db uid req now = (db2, .ok resp) ∧
      resp.questions.length =
        min req.number_of_questions
          (db.past_questions.filter (matchesQuery req)).length ∧
      ∀ q ∈ resp.questions, q.correct_answer = none := by
  have hn0 : pyOrNat req.number_of_questions 50 = req.number_of_questions := by
    unfold pyOrNat
    rw [if_neg (by omega)]
  unfold create_mock_exam
  rw [if_pos hpool, hn0]
  refine ⟨_, _, rfl, ?_, ?_⟩
  · show (List.map _ (List.enum _)).length = _
    rw [List.length_map, List.enum_length]
    exact (hs _ _ _ (Nat.min_le_right _ _)).1
  · intro q hq
    obtain ⟨p, hp, hq2⟩ := List.mem_map.mp hq
    rw [← hq2]

/-- Witness for C2: with the one-entry bank `dbBank` and a validated
request for 10 questions, one question comes back and its answer field is
null. -/
theorem create_exam_bank_count_and_hidden_witness :
    ∃ db2 resp, create_mock_exam takeSample dbBank 7
        ⟨"WAEC", "Mathematics", none, 10, 60⟩ 0 = (db2, .ok resp) ∧
      resp.questions.length =
        min 10 ((dbBank.past_questions.filter
          (matchesQuery ⟨"WAEC", "Mathematics", none, 10, 60⟩)).length) ∧
      ∀ q ∈ resp.questions, q.correct_answer = none :=
  create_exam_bank_count_and_hidden takeSample dbBank 7
    ⟨"WAEC", "Mathematics", none, 10, 60⟩ 0 takeSample_valid (by decide)
    (by decide)

/-- C10: grading is total when every submitted position lies in
`[1, total_questions]` (for an attempt whose stored total matches its
question list); outside that precondition the indexing misbehaves in
both claimed ways on `examFix` (2 questions): position 3 (not a key of
the answer key) makes `submit_exam` hit the IndexError branch of the
embedded `questions[q_num - 1]` lookup and fail with a server error,
leaving the database unchanged, while position 0 is not rejected — the
negative Python index `-1` silently grades against question 2 ("Q2"),
a question other than any position-0 question. -/
theorem grading_total_iff_positions_in_range :
    (∀ (exam : ExamAttempt) (st : GradeState) (answers : List (Int × String)),
      exam.total_questions = exam.questions.length →
      (∀ qa ∈ answers, 1 ≤ qa.1 ∧ qa.1 ≤ (exam.total_questions : Int)) →
      ∃ st', gradeLoop exam st answers = .ok st') ∧
    submit_exam dbFix 7 ⟨1, [(3, "A")], 30⟩ 99 =
      (dbFix, .error ⟨500, "IndexError: list index out of range"⟩) ∧
    (resultOf (submit_exam dbFix 7 ⟨1, [(0, "Z")], 30⟩ 99)).map
      (fun r => r.detailed_results.map
        (fun d => (d.question_number, d.question_text))) =
      some [(0, "Q2")] := by
  refine ⟨?_, rfl, rfl⟩
  intro exam st answers htot hv
  refine gradeLoop_ok_of_valid exam answers st (fun qa hqa => ?_)
  obtain ⟨h1, h2⟩ := hv qa hqa
  rw [htot] at h2
  exact ⟨h1, h2⟩

/-- Witness for C10: both positions of `examFix` submitted in range, so
grading succeeds. -/
theorem grading_total_iff_positions_in_range_witness :
    ∃ st', gradeLoop examFix ⟨0, [], []⟩ [(1, "A"), (2, "C")] = .ok st' :=
  grading_total_iff_positions_in_range.1 examFix ⟨0, [], []⟩
    [(1, "A"), (2, "C")] (by decide) (by decide)

/-- `updateFirst` touches at most one position, and only by applying `f`. -/
lemma updateFirst_get?_cases {α : Type} (p : α → Bool) (f : α → α) :
    ∀ (l : List α) (i : Nat) (x : α), l.get? i = some x →
      ∃ y, (updateFirst p f l).get? i = some y ∧ (y = x ∨ y = f x) := by
  intro l
  induction l with
  | nil => intro i x h; simp at h
  | cons a l ih =>
    intro i x h
    unfold updateFirst
    by_cases hp : p a
    · rw [if_pos hp]
      cases i with
      | zero =>
        cases h
        exact ⟨f a, rfl, Or.inr rfl⟩
      | succ i => exact ⟨x, h, Or.inl rfl⟩
    · rw [if_neg hp]
      cases i with
      | zero =>
        cases h
        exact ⟨a, rfl, Or.inl rfl⟩
      | succ i => exact ih i x h

/-- `updateFirst` applies `f` exactly at the first matching index. -/
lemma updateFirst_get?_first {α : Type} (p : α → Bool) (f : α → α) :
    ∀ (l : List α) (i : Nat) (x : α), l.get? i = some x → p x = true →
      (∀ j y, j < i → l.get? j = some y → p y = false) →
      (updateFirst p f l).get? i = some (f x) := by
  intro l
  induction l with
  | nil => intro i x h; simp at h
  | cons a l ih =>
    intro i x h hp hbefore
    unfold updateFirst
    cases i with
    | zero =>
      cases h
      rw [if_pos hp]
      rfl
    | succ i =>
      have ha : p a = false := hbefore 0 a (Nat.succ_pos i) rfl
      rw [if_neg (by simp [ha])]
      exact ih i x h hp (fun j y hj hy => hbefore (j + 1) y
        (Nat.succ_lt_succ hj) hy)

/-- Per-row monotonicity of the `user_subjects` counters: every existing
row survives at its index with the same user and subject and counters at
least as large. -/
def rowMono (before after : List UserSubject) : Prop :=
  ∀ i s, before.get? i = some s → ∃ t, after.get? i = some t ∧
    t.user_id = s.user_id ∧ t.subject_name = s.subject_name ∧
    s.total_questions_attempted ≤ t.total_questions_attempted ∧
    s.correct_answers ≤ t.correct_answers

/-- The exam-grading statistics update only ever adds to counters. -/
lemma updateSubjectStats_mono (subjects : List UserSubject) (uid : Nat)
    (subject : String) (total correct : Nat) :
    rowMono subjects (updateSubjectStats subjects uid subject total correct) := by
  intro i s hs
  unfold updateSubjectStats
  by_cases hany : subjects.any (fun s => s.user_id = uid ∧ s.subject_name = subject)
  · rw [if_pos hany]
    obtain ⟨y, hy, hcase⟩ := updateFirst_get?_cases _ _ subjects i s hs
    refine ⟨y, hy, ?_⟩
    rcases hcase with h | h <;> subst h
    · exact ⟨rfl, rfl, le_refl _, le_refl _⟩
    · exact ⟨rfl, rfl, Nat.le_add_right _ _, Nat.le_add_right _ _⟩
  · rw [if_neg hany]
    exact ⟨s, hs, rfl, rfl, le_refl _, le_refl _⟩

/-- The ad-hoc question statistics update only ever adds to counters. -/
lemma solveQuestionStats_mono (subjects : List UserSubject) (uid : Nat)
    (name : Option String) (nid : Nat) :
    rowMono subjects (solveQuestionStats subjects uid name nid) := by
  intro i s hs
  unfold solveQuestionStats
  by_cases ht : strTruthy name
  · rw [if_pos ht]
    dsimp only
    by_cases hany : subjects.any
        (fun r => r.user_id = uid ∧ r.subject_name = name.getD "")
    · rw [if_pos hany]
      obtain ⟨y, hy, hcase⟩ := updateFirst_get?_cases _ _ subjects i s hs
      refine ⟨y, hy, ?_⟩
      rcases hcase with h | h <;> subst h
      · exact ⟨rfl, rfl, le_refl _, le_refl _⟩
      · exact ⟨rfl, rfl, Nat.le_succ _, le_refl _⟩
    · rw [if_neg hany]
      have hi : i < subjects.length := (List.get?_eq_some.mp hs).1
      refine ⟨s, ?_, rfl, rfl, le_refl _, le_refl _⟩
      rw [List.get?_append hi]
      exact hs
  · rw [if_neg ht]
    exact ⟨s, hs, rfl, rfl, le_refl _, le_refl _⟩

/-- The `user_subjects` table after any `submit_exam` call: unchanged on
every error path, updated through `updateSubjectStats` on success. -/
lemma submit_exam_subjects (db : DB) (uid : Nat) (sub : ExamSubmissionRequest)
    (now : Nat) :
    ((submit_exam db uid sub now).1).user_subjects = db.user_subjects ∨
    ∃ (exam : ExamAttempt) (st : GradeState),
      ((submit_exam db uid sub now).1).user_subjects =
        updateSubjectStats db.user_subjects uid exam.subject
          exam.total_questions st.correct_count := by
  unfold submit_exam
  rcases hfind : db.attempts.find?
      (fun e => e.id = sub.exam_id ∧ e.user_id = uid) with _ | exam
  · rw [hfind]
    left; rfl
  · rw [hfind]
    dsimp only
    by_cases hdone : exam.completed_at.isSome
    · rw [if_pos hdone]
      left; rfl
    · rw [if_neg hdone]
      rcases hgrade : gradeLoop exam ⟨0, [], []⟩ sub.answers with e | st
      · left; rfl
      · dsimp only
        by_cases htot : exam.total_questions = 0
        · rw [if_pos htot]
          left; rfl
        · rw [if_neg htot]
          right; exact ⟨exam, st, rfl⟩

/-- C8, amended: under the grading and ad-hoc solving operations, the
per-user per-subject counters `total_questions_attempted` and
`correct_answers` never decrease (the profile-update route, which
replaces the user's subject rows wholesale and resets the counters to
the column defaults, is the one exception to the original universal
claim — see the counterexample).  Conjuncts: (1) any `submit_exam` call
leaves every `user_subjects` row with counters at least as large;
(2) so does the `solve_question` statistics update; (3) grading changes
no row when no row matches the user and subject; (4) when a first
matching row exists, grading adds the attempt's `total_questions` and
`correct_count` to exactly that row; (5) an AI-solved question for a
fresh subject appends a row with `total_questions_attempted = 1` (and
the column default `correct_answers = 0`); (6) for an existing subject
row it increments `total_questions_attempted` by one. -/
theorem subject_counters_monotone :
    (∀ (db : DB) (uid : Nat) (sub : ExamSubmissionRequest) (now : Nat),
      rowMono db.user_subjects ((submit_exam db uid sub now).1).user_subjects) ∧
    (∀ (subjects : List UserSubject) (uid : Nat) (name : Option String)
      (nid : Nat), rowMono subjects (solveQuestionStats subjects uid name nid)) ∧
    (∀ (subjects : List UserSubject) (uid : Nat) (subject : String)
      (total correct : Nat),
      subjects.any (fun s => s.user_id = uid ∧ s.subject_name = subject) = false →
      updateSubjectStats subjects uid subject total correct = subjects) ∧
    (∀ (subjects : List UserSubject) (uid : Nat) (subject : String)
      (total correct : Nat) (i : Nat) (s : UserSubject),
      subjects.get? i = some s →
      s.user_id = uid → s.subject_name = subject →
      (∀ j y, j < i → subjects.get? j = some y →
        ¬(y.user_id = uid ∧ y.subject_name = subject)) →
      (updateSubjectStats subjects uid subject total correct).get? i =
        some { s with
          total_questions_attempted := s.total_questions_attempted + total
          correct_answers := s.correct_answers + correct }) ∧
    (∀ (subjects : List UserSubject) (uid : Nat) (s : String) (nid : Nat),
      s ≠ "" →
      subjects.any (fun r => r.user_id = uid ∧ r.subject_name = s) = false →
      solveQuestionStats subjects uid (some s) nid =
        subjects ++ [{ id := nid, user_id := uid, subject_name := s
                       total_questions_attempted := 1, correct_answers := 0 }]) ∧
    (∀ (subjects : List UserSubject) (uid : Nat) (s : String) (nid : Nat)
      (i : Nat) (r : UserSubject), s ≠ "" →
      subjects.get? i = some r →
      r.user_id = uid → r.subject_name = s →
      (∀ j y, j < i → subjects.get? j = some y →
        ¬(y.user_id = uid ∧ y.subject_name = s)) →
      (solveQuestionStats subjects uid (some s) nid).get? i =
        some { r with
          total_questions_attempted := r.total_questions_attempted + 1 }) := by
  refine ⟨?_, ?_, ?_, ?_, ?_, ?_⟩
  · intro db uid sub now
    rcases submit_exam_subjects db uid sub now with h | ⟨exam, st, h⟩
    · rw [h]
      exact fun i s hs => ⟨s, hs, rfl, rfl, le_refl _, le_refl _⟩
    · rw [h]
      exact updateSubjectStats_mono db.user_subjects uid exam.subject
        exam.total_questions st.correct_count
  · exact solveQuestionStats_mono
  · intro subjects uid subject total correct hany
    unfold updateSubjectStats
    rw [if_neg (by simp only [hany]; exact Bool.false_ne_true)]
  · intro subjects uid subject total correct i s hs h1 h2 hbefore
    unfold updateSubjectStats
    rw [if_pos (List.any_eq_true.mpr
      ⟨s, List.get?_mem hs, by simp [h1, h2]⟩)]
    exact updateFirst_get?_first _ _ subjects i s hs (by simp [h1, h2])
      (fun j y hj hy => by simpa using hbefore j y hj hy)
  · intro subjects uid s nid hs hany
    unfold solveQuestionStats
    rw [if_pos (by simp [strTruthy, hs])]
    dsimp only [Option.getD_some]
    rw [if_neg (by simp only [hany]; exact Bool.false_ne_true)]
  · intro subjects uid s nid i r hs hr h1 h2 hbefore
    unfold solveQuestionStats
    rw [if_pos (by simp [strTruthy, hs])]
    dsimp only [Option.getD_some]
    rw [if_pos (List.any_eq_true.mpr
      ⟨r, List.get?_mem hr, by simp [h1, h2]⟩)]
    exact updateFirst_get?_first _ _ subjects i r hr (by simp [h1, h2])
      (fun j y hj hy => by simpa using hbefore j y hj hy)

/-- Witness for C8: on the one-row table `[⟨1, 7, "Mathematics", 5, 3⟩]`,
an AI-solved Mathematics question yields row counters (6, 3), and grading
a 9-question attempt with 7 correct yields (14, 10) — both at least
(5, 3). -/
theorem subject_counters_monotone_witness :
    (solveQuestionStats [⟨1, 7, "Mathematics", 5, 3⟩] 7 (some "Mathematics")
      2).get? 0 = some ⟨1, 7, "Mathematics", 6, 3⟩ ∧
    (updateSubjectStats [⟨1, 7, "Mathematics", 5, 3⟩] 7 "Mathematics" 9
      7).get? 0 = some ⟨1, 7, "Mathematics", 14, 10⟩ ∧
    ∃ t, (solveQuestionStats [⟨1, 7, "Mathematics", 5, 3⟩] 7 none 2).get? 0 =
      some t ∧ 5 ≤ t.total_questions_attempted ∧ 3 ≤ t.correct_answers := by
  refine ⟨?_, ?_, ?_⟩
  · exact subject_counters_monotone.2.2.2.2.2 [⟨1, 7, "Mathematics", 5, 3⟩] 7
      "Mathematics" 2 0 ⟨1, 7, "Mathematics", 5, 3⟩ (by decide) rfl rfl rfl
      (fun j y hj => by omega)
  · exact subject_counters_monotone.2.2.2.1 [⟨1, 7, "Mathematics", 5, 3⟩] 7
      "Mathematics" 9 7 0 ⟨1, 7, "Mathematics", 5, 3⟩ rfl rfl rfl
      (fun j y hj => by omega)
  · obtain ⟨t, ht, _, _, h4, h5⟩ := subject_counters_monotone.2.1
      [⟨1, 7, "Mathematics", 5, 3⟩] 7 none 2 0 ⟨1, 7, "Mathematics", 5, 3⟩ rfl
    exact ⟨t, ht, h4, h5⟩

/-- The subjects-replacement step of `update_my_profile` (auth.py lines
257-268): when the update supplies a subjects list, every
`user_subjects` row of the user is deleted
(`db.query(UserSubject).filter(user_id == current_user.id).delete()`)
and one fresh row per name is inserted with only `user_id` and
`subject_name` set, so the counters take the column defaults
`total_questions_attempted = 0`, `correct_answers = 0`; a `None`
subjects field leaves the rows untouched.  `next_id` models the
DB-assigned primary keys. -/
def update_my_profile_subjects (subjects : List UserSubject) (uid : Nat)
    (update_subjects : Option (List String)) (next_id : Nat) :
    List UserSubject :=
  match update_subjects with
  | none => subjects
  | some names =>
    subjects.filter (fun r => ¬(r.user_id = uid)) ++
      names.enum.map (fun p =>
        ({ id := next_id + p.1, user_id := uid, subject_name := p.2
           total_questions_attempted := 0, correct_answers := 0 } : UserSubject))

/-- C8, counterexample: the profile-update route decreases the counters.
Updating user 7's profile with the subjects list ["Mathematics"] deletes
the existing (7, "Mathematics") row with counters (5, 3) and recreates
it with the defaults (0, 0), so the per-row monotonicity invariant
`rowMono` fails for this operation: not every operation of the program
leaves the counters non-decreasing. -/
theorem profile_update_resets_counters_cex :
    update_my_profile_subjects [⟨1, 7, "Mathematics", 5, 3⟩] 7
      (some ["Mathematics"]) 2 =
      [{ id := 2, user_id := 7, subject_name := "Mathematics"
         total_questions_attempted := 0, correct_answers := 0 }] ∧
    ¬ rowMono [⟨1, 7, "Mathematics", 5, 3⟩]
      (update_my_profile_subjects [⟨1, 7, "Mathematics", 5, 3⟩] 7
        (some ["Mathematics"]) 2) := by
  refine ⟨rfl, fun h => ?_⟩
  obtain ⟨t, ht, _, _, h4, _⟩ := h 0 ⟨1, 7, "Mathematics", 5, 3⟩ rfl
  have ht2 : some (⟨2, 7, "Mathematics", 0, 0⟩ : UserSubject) = some t := ht
  cases ht2
  exact absurd h4 (by decide)

end AiTutor
